import Mathlib

/-!
Verification of the task-manager coordination core.

The definitions below are a shallow embedding of the TypeScript sources:
  * `x-pack/legacy/plugins/task_manager/lib/result_type.ts` (the `Result` sum type),
  * `x-pack/plugins/task_manager/server/task_manager.ts` (`awaitTaskRunResult`,
    `claimAvailableTasks`, `pollForWork`, `ensureScheduled`, the poller/monitor
    timeout wiring of the `TaskManager` constructor),
  * the plugin setup facade (`TaskManagerPlugin.setup` / `assertStillInSetup`).

Promises that may reject are embedded as `Except`; the rxjs event stream is
embedded as a list of events folded over an explicit subscription state.
-/

namespace Kibana

/-- The `Result` sum type of `result_type.ts`: a discriminated union of
`Ok { tag: 'ok', value }` and `Err { tag: 'err', error }`. -/
inductive Result (T E : Type) where
  | Ok (value : T)
  | Err (error : E)
deriving DecidableEq, Repr

/-- `asOk(value)` constructs the `ok`-tagged variant. -/
def asOk {T E : Type} (value : T) : Result T E := .Ok value

/-- `asErr(error)` constructs the `err`-tagged variant. -/
def asErr {T E : Type} (error : E) : Result T E := .Err error

/-- The `tag` discriminant field of a `Result` value. -/
def Result.tag {T E : Type} : Result T E → String
  | .Ok _ => "ok"
  | .Err _ => "err"

/-- `isOk(result)` tests `result.tag === 'ok'`. -/
def isOk {T E : Type} (result : Result T E) : Bool := result.tag == "ok"

/-- `isErr(result)` is `!isOk(result)`. -/
def isErr {T E : Type} (result : Result T E) : Bool := !(isOk result)

/-- `resolve(result, onOk, onErr)` dispatches on the tag: the `ok` branch
receives `result.value`, the `err` branch receives `result.error`. -/
def resolve {T E R : Type} (result : Result T E) (onOk : T → R) (onErr : E → R) : R :=
  match result with
  | .Ok value => onOk value
  | .Err error => onErr error

/-- `either(result, onOk, onErr)` is `resolve` at the `void` resolution type. -/
def either {T E : Type} (result : Result T E) (onOk : T → Unit) (onErr : E → Unit) : Unit :=
  resolve result onOk onErr

/-- Task statuses persisted in the store (`TaskStatus` in `task.ts`,
spec section 3: `status ∈ {idle, claiming, running, failed}`). -/
inductive TaskStatus where
  | idle
  | claiming
  | running
  | failed
deriving DecidableEq, Repr

/-- A task's lifecycle as reported by `getLifecycle`: either a `TaskStatus`
or the `TaskLifecycleResult.NotFound` marker (`TaskLifecycle` in `task.ts`). -/
inductive TaskLifecycle where
  | st (s : TaskStatus)
  | notFound
deriving DecidableEq, Repr

/-- Injection of a stored status into the lifecycle union. -/
def TaskStatus.toLifecycle (s : TaskStatus) : TaskLifecycle := .st s

/-- The string value of each status enum literal. -/
def TaskStatus.toStr : TaskStatus → String
  | .idle => "idle"
  | .claiming => "claiming"
  | .running => "running"
  | .failed => "failed"

/-- The string value of each lifecycle enum literal (used when the status is
interpolated into an error message). -/
def TaskLifecycle.toStr : TaskLifecycle → String
  | .st s => s.toStr
  | .notFound => "notFound"

/-- The slice of a `ConcreteTaskInstance` that `awaitTaskRunResult` reads:
its `id` and its stored `status`. -/
structure ConcreteTaskInstance where
  id : String
  status : TaskStatus
deriving DecidableEq, Repr

/-- The lifecycle events published on the facade's `events$` stream
(`TaskLifecycleEvent = TaskMarkRunning | TaskRun | TaskClaim | TaskRunRequest`).
Each event carries the task `id` and an `Ok`/`Err` payload; a `TaskClaim`
error payload is an `Option<ConcreteTaskInstance>` (the task returned by the
claim sweep, when available), the other error payloads are stringified
`Error`s. -/
inductive TaskLifecycleEvent where
  | taskClaim (id : String) (event : Result ConcreteTaskInstance (Option ConcreteTaskInstance))
  | taskMarkRunning (id : String) (event : Result ConcreteTaskInstance String)
  | taskRun (id : String) (event : Result ConcreteTaskInstance String)
  | taskRunRequest (id : String) (event : Result ConcreteTaskInstance String)
deriving DecidableEq, Repr

/-- The `id` field shared by every lifecycle event. -/
def TaskLifecycleEvent.id : TaskLifecycleEvent → String
  | .taskClaim i _ => i
  | .taskMarkRunning i _ => i
  | .taskRun i _ => i
  | .taskRunRequest i _ => i

/-- The `{ id }` value with which a `runNow` promise resolves. -/
structure RunNowResult where
  id : String
deriving DecidableEq, Repr

/-- `String.prototype.includes`: the needle occurs contiguously in the
haystack. -/
def includes (s segment : String) : Prop := segment.data <:+: s.data

instance (s segment : String) : Decidable (includes s segment) :=
  List.decidableInfix segment.data s.data

/-- `Failed to run task "${taskId}" as it does not exist` -/
def notFoundMessage (taskId : String) : String :=
  "Failed to run task \"" ++ taskId ++ "\" as it does not exist"

/-- `Failed to run task "${taskId}" as it is currently running` -/
def currentlyRunningMessage (taskId : String) : String :=
  "Failed to run task \"" ++ taskId ++ "\" as it is currently running"

/-- `Failed to run task "${taskId}" for unknown reason (Current Task Lifecycle is "${taskLifecycleStatus}")` -/
def unknownReasonMessage (taskId : String) (taskLifecycleStatus : TaskLifecycle) : String :=
  "Failed to run task \"" ++ taskId ++ "\" for unknown reason (Current Task Lifecycle is \"" ++
    taskLifecycleStatus.toStr ++ "\")"

/-- `Failed to run task "${taskId}" and failed to get current Status:${getLifecycleError}` -/
def statusFetchFailedMessage (taskId getLifecycleError : String) : String :=
  "Failed to run task \"" ++ taskId ++ "\" and failed to get current Status:" ++ getLifecycleError

/-- `Failed to run task "${taskId}" as Task Manager is at capacity, please try again later` -/
def capacityMessage (taskId : String) : String :=
  "Failed to run task \"" ++ taskId ++ "\" as Task Manager is at capacity, please try again later"

/-- `Failed to run task "${taskId}": ${error}` -/
def runFailedMessage (taskId error : String) : String :=
  "Failed to run task \"" ++ taskId ++ "\": " ++ error

/-- The rejection message built by `awaitTaskRunResult` for a `Claim` error:
it dispatches on the task's lifecycle (the swept task's status when the error
payload carried one, otherwise the `getLifecycle` result, whose own failure is
the `Err` branch). `NotFound` yields the does-not-exist message,
`Running`/`Claiming` the currently-running message, anything else the
unknown-reason message. -/
def claimErrorMessage (taskId : String) (lifecycleResult : Result TaskLifecycle String) : String :=
  match lifecycleResult with
  | .Ok taskLifecycleStatus =>
      if taskLifecycleStatus = TaskLifecycle.notFound then
        notFoundMessage taskId
      else if taskLifecycleStatus = TaskStatus.running.toLifecycle ∨
          taskLifecycleStatus = TaskStatus.claiming.toLifecycle then
        currentlyRunningMessage taskId
      else
        unknownReasonMessage taskId taskLifecycleStatus
  | .Err getLifecycleError => statusFetchFailedMessage taskId getLifecycleError

/-- The lifecycle consulted on a `Claim` error: the swept task's status when
present (`mapOptional(task => asOk(task.status))`), otherwise
`promiseResult(getLifecycle(taskId))`. -/
def claimErrorLifecycle (taskId : String) (getLifecycle : String → Result TaskLifecycle String)
    (error : Option ConcreteTaskInstance) : Result TaskLifecycle String :=
  match error with
  | some taskReturnedBySweep => asOk taskReturnedBySweep.status.toLifecycle
  | none => getLifecycle taskId

/-- How a `runNow` promise is settled. -/
inductive Settled where
  | resolved (value : RunNowResult)
  | rejected (error : String)
deriving DecidableEq, Repr

/-- The body of the `awaitTaskRunResult` subscription, for one event whose
`id` already passed the `filter`: `some` settles the promise (and the
subscription unsubscribes), `none` leaves it pending.

  * `Claim(Ok)` does nothing (only `mapErr` acts on a claim event);
  * `Claim(Err)` rejects with the lifecycle-derived diagnostic;
  * `Run(Ok(task))` resolves with `{ id: task.id }`;
  * `MarkRunning(Ok)` does nothing (`isTaskRunEvent` is false);
  * `RunRequest(Err)` rejects with the capacity message;
  * `MarkRunning(Err)` and `Run(Err)` reject with the generic run failure. -/
def handleEvent (taskId : String) (getLifecycle : String → Result TaskLifecycle String) :
    TaskLifecycleEvent → Option Settled
  | .taskClaim _ (.Ok _) => none
  | .taskClaim _ (.Err error) =>
      some (.rejected (claimErrorMessage taskId (claimErrorLifecycle taskId getLifecycle error)))
  | .taskMarkRunning _ (.Ok _) => none
  | .taskMarkRunning _ (.Err error) => some (.rejected (runFailedMessage taskId error))
  | .taskRun _ (.Ok taskInstance) => some (.resolved ⟨taskInstance.id⟩)
  | .taskRun _ (.Err error) => some (.rejected (runFailedMessage taskId error))
  | .taskRunRequest _ (.Ok _) => none
  | .taskRunRequest _ (.Err _) => some (.rejected (capacityMessage taskId))

/-- The state of the `awaitTaskRunResult` subscription: whether
`subscription.unsubscribe()` has run, and every `resolve`/`reject` call made
so far (in order). -/
structure SubState where
  closed : Bool
  calls : List Settled
deriving DecidableEq, Repr

/-- Delivery of one stream event to the subscription: a closed subscription
ignores it, the `filter` drops events whose `id` differs from `taskId`, and a
terminal event records its settle call and unsubscribes. -/
def processEvent (taskId : String) (getLifecycle : String → Result TaskLifecycle String)
    (st : SubState) (ev : TaskLifecycleEvent) : SubState :=
  if st.closed then st
  else if ev.id = taskId then
    match handleEvent taskId getLifecycle ev with
    | none => st
    | some s => ⟨true, st.calls ++ [s]⟩
  else st

/-- All settle calls made by `awaitTaskRunResult(taskId, events$, getLifecycle)`
when the stream emits `events` (in order) after the subscription is created. -/
def settleCalls (taskId : String) (getLifecycle : String → Result TaskLifecycle String)
    (events : List TaskLifecycleEvent) : List Settled :=
  (events.foldl (processEvent taskId getLifecycle) ⟨false, []⟩).calls

/-- The options `claimAvailableTasks` passes to `store.claimAvailableTasks`. -/
structure OwnershipClaimingOpts where
  size : Nat
  claimOwnershipUntil : Nat
  claimTasksById : List String
deriving DecidableEq, Repr

/-- The store's answer to a claim call: the materialized documents and the
update count it reported. -/
structure ClaimOwnershipResult where
  docs : List ConcreteTaskInstance
  claimedTasks : Nat
deriving DecidableEq, Repr

/-- An error raised (promise rejection) by the store during a claim call. -/
structure StoreError where
  message : String
deriving DecidableEq, Repr

/-- Modelled from the spec: `lib/identify_es_error.ts` is not among the
sources; it extracts the diagnostic phrases from a raised Elasticsearch error
(spec section 4.1: "a store error containing a diagnostic phrase indicating
inline scripting is disabled"). Modelled as returning the error's diagnostic
message. -/
def identifyEsError (ex : StoreError) : String := ex.message

/-- `Task Manager cannot operate when inline scripts are disabled in Elasticsearch` -/
def inlineScriptsDisabledWarning : String :=
  "Task Manager cannot operate when inline scripts are disabled in Elasticsearch"

/-- `[Task Ownership error]: ${claimedTasks} tasks were claimed by Kibana, but ${docs.length} task(s) were fetched (${ids})` -/
def taskOwnershipWarning (claimedTasks : Nat) (docs : List ConcreteTaskInstance) : String :=
  "[Task Ownership error]: " ++ toString claimedTasks ++
    " tasks were claimed by Kibana, but " ++ toString docs.length ++
    " task(s) were fetched (" ++ String.intercalate ", " (docs.map (fun doc => doc.id)) ++ ")"

/-- The debug line logged when the cycle is skipped for lack of workers. -/
def noWorkersDebugMessage : String :=
  "[Task Ownership]: Task Manager has skipped Claiming Ownership of available tasks at it has ran out Available Workers."

/-- Everything observable about one `claimAvailableTasks` cycle: the value the
call returns (or the error it rethrows), the warn/debug lines it logs, and the
claim requests it actually issued to the store. -/
structure ClaimCycleOutcome where
  result : Except StoreError (List ConcreteTaskInstance)
  warnLogs : List String
  debugLogs : List String
  claimCalls : List OwnershipClaimingOpts
deriving Repr

/-- `claimAvailableTasks(claimTasksById, claim, availableWorkers, logger)`.
With no available workers it logs a debug line and returns `[]` without
calling the store. Otherwise it calls `claim` with `size = availableWorkers`
and `claimOwnershipUntil = intervalFromNow('30s')`; on success it returns the
docs, warning when the store's update count disagrees with `docs.length`; a
raised store error identified as the inline-scripts-disabled condition is
logged at warn level and the cycle falls through to `return []`, every other
error is rethrown. -/
def claimAvailableTasks (claimTasksById : List String)
    (claim : OwnershipClaimingOpts → Except StoreError ClaimOwnershipResult)
    (availableWorkers : Nat) (now : Nat) : ClaimCycleOutcome :=
  if availableWorkers > 0 then
    match claim ⟨availableWorkers, now + 30000, claimTasksById⟩ with
    | .ok r =>
        ⟨.ok r.docs,
          if r.docs.length ≠ r.claimedTasks then [taskOwnershipWarning r.claimedTasks r.docs]
          else [],
          [], [⟨availableWorkers, now + 30000, claimTasksById⟩]⟩
    | .error ex =>
        if includes (identifyEsError ex) "cannot execute [inline] scripts" then
          ⟨.ok [], [inlineScriptsDisabledWarning], [],
            [⟨availableWorkers, now + 30000, claimTasksById⟩]⟩
        else
          ⟨.error ex, [], [], [⟨availableWorkers, now + 30000, claimTasksById⟩]⟩
  else
    ⟨.ok [], [], [noWorkersDebugMessage], []⟩

/-- The claim phase of `TaskManager.pollForWork`: it splices the first
`availableWorkers` buffered task ids out of `tasksToClaim` (withholding the
excess for a later cycle) and hands them to `claimAvailableTasks` together
with the pool's current availability. -/
def pollForWork (tasksToClaim : List String) (availableWorkers : Nat)
    (claim : OwnershipClaimingOpts → Except StoreError ClaimOwnershipResult)
    (now : Nat) : ClaimCycleOutcome :=
  claimAvailableTasks (tasksToClaim.take availableWorkers) claim availableWorkers now

/-- `VERSION_CONFLICT_STATUS = 409` -/
def VERSION_CONFLICT_STATUS : Nat := 409

/-- The slice of a task instance that `ensureScheduled` handles. -/
structure TaskInstanceWithId where
  id : String
  taskType : String
  params : String
deriving DecidableEq, Repr

/-- An error thrown by `schedule` (its `statusCode` may be absent). -/
structure SchedulingError where
  statusCode : Option Nat
  message : String
deriving DecidableEq, Repr

/-- `TaskManager.ensureScheduled(taskInstance, options)`: delegate to
`schedule`; when it throws with `statusCode === VERSION_CONFLICT_STATUS`
return the supplied instance, otherwise rethrow. -/
def ensureScheduled
    (schedule : TaskInstanceWithId → Except SchedulingError TaskInstanceWithId)
    (taskInstance : TaskInstanceWithId) : Except SchedulingError TaskInstanceWithId :=
  match schedule taskInstance with
  | .ok doc => .ok doc
  | .error err =>
      if err.statusCode = some VERSION_CONFLICT_STATUS then .ok taskInstance
      else .error err

/-- The configuration fields the `TaskManager` constructor reads when wiring
the poller and its monitor. -/
structure TaskManagerConfig where
  poll_interval : Nat
  max_poll_inactivity_cycles : Nat
  request_capacity : Nat
  max_workers : Nat
deriving DecidableEq, Repr

/-- The poller options the constructor computes. -/
structure TaskPollerOpts where
  bufferCapacity : Nat
  workTimeout : Nat
deriving DecidableEq, Repr

/-- The monitor options the constructor computes. -/
structure ObservableMonitorOpts where
  heartbeatInterval : Nat
  inactivityTimeout : Nat
deriving DecidableEq, Repr

/-- The timeout wiring of the `TaskManager` constructor: the poller is created
with `workTimeout: pollInterval * maxPollInactivityCycles` and wrapped in an
observable monitor with `heartbeatInterval: pollInterval` and
`inactivityTimeout: pollInterval * (maxPollInactivityCycles + 1)`. -/
def taskManagerPollerWiring (config : TaskManagerConfig) :
    TaskPollerOpts × ObservableMonitorOpts :=
  let pollInterval := config.poll_interval
  let maxPollInactivityCycles := config.max_poll_inactivity_cycles
  (⟨config.request_capacity, pollInterval * maxPollInactivityCycles⟩,
   ⟨pollInterval, pollInterval * (maxPollInactivityCycles + 1)⟩)

/-- The plugin facade state relevant to registration: the middleware chain,
the task-type dictionary, and whether the polling lifecycle has been created
and started (`this.taskPollingLifecycle?.isStarted`). -/
structure TaskManagerPluginState (M D : Type) where
  middleware : List M
  definitions : List (String × D)
  taskPollingLifecycle : Option Bool
deriving DecidableEq, Repr

/-- `this.taskPollingLifecycle?.isStarted` (an absent lifecycle is falsy). -/
def TaskManagerPluginState.isStarted {M D : Type} (st : TaskManagerPluginState M D) : Bool :=
  st.taskPollingLifecycle.getD false

/-- `TaskManagerPlugin.assertStillInSetup(operation)`: throw
`Cannot ${operation} after the task manager has started` once the polling
lifecycle reports it has started. -/
def assertStillInSetup {M D : Type} (st : TaskManagerPluginState M D) (operation : String) :
    Except String Unit :=
  if st.isStarted then
    .error ("Cannot " ++ operation ++ " after the task manager has started")
  else
    .ok ()

/-- Modelled from the spec: `lib/middleware.ts` is not among the sources;
`addMiddlewareToChain` composes the newly supplied middleware onto the
existing chain (spec section 4.8). Modelled as appending to the chain. -/
def addMiddlewareToChain {M : Type} (chain : List M) (middleware : M) : List M :=
  chain ++ [middleware]

/-- Modelled from the spec: `task_type_dictionary.ts` is not among the
sources; `registerTaskDefinitions` adds the supplied task-type definitions to
the in-memory mapping (spec section 4.3). Modelled as appending the entries. -/
def registerTaskDefinitionsInDictionary {D : Type} (dict entries : List (String × D)) :
    List (String × D) :=
  dict ++ entries

/-- The `addMiddleware` member of the setup contract: assert the manager is
still in setup, then extend the middleware chain. -/
def addMiddleware {M D : Type} (st : TaskManagerPluginState M D) (middleware : M) :
    Except String (TaskManagerPluginState M D) :=
  match assertStillInSetup st "add Middleware" with
  | .error e => .error e
  | .ok _ => .ok { st with middleware := addMiddlewareToChain st.middleware middleware }

/-- The `registerTaskDefinitions` member of the setup contract: assert the
manager is still in setup, then register the definitions. -/
def registerTaskDefinitions {M D : Type} (st : TaskManagerPluginState M D)
    (taskDefinitions : List (String × D)) : Except String (TaskManagerPluginState M D) :=
  match assertStillInSetup st "register task definitions" with
  | .error e => .error e
  | .ok _ =>
      .ok { st with
        definitions := registerTaskDefinitionsInDictionary st.definitions taskDefinitions }

/- Helper lemmas about the subscription fold. -/

lemma processEvent_closed (taskId : String) (gl : String → Result TaskLifecycle String)
    (st : SubState) (ev : TaskLifecycleEvent) (h : st.closed = true) :
    processEvent taskId gl st ev = st := by
  simp [processEvent, h]

lemma foldl_processEvent_closed (taskId : String) (gl : String → Result TaskLifecycle String)
    (st : SubState) (events : List TaskLifecycleEvent) (h : st.closed = true) :
    events.foldl (processEvent taskId gl) st = st := by
  induction events with
  | nil => rfl
  | cons ev rest ih =>
      rw [List.foldl_cons, processEvent_closed taskId gl st ev h, ih]

lemma processEvent_open_cases (taskId : String) (gl : String → Result TaskLifecycle String)
    (cs : List Settled) (ev : TaskLifecycleEvent) :
    processEvent taskId gl ⟨false, cs⟩ ev = ⟨false, cs⟩ ∨
      ∃ s, ev.id = taskId ∧ handleEvent taskId gl ev = some s ∧
        processEvent taskId gl ⟨false, cs⟩ ev = ⟨true, cs ++ [s]⟩ := by
  by_cases hid : ev.id = taskId
  · cases hh : handleEvent taskId gl ev with
    | none => left; simp [processEvent, hid, hh]
    | some s =>
        right
        refine ⟨s, hid, rfl, ?_⟩
        simp [processEvent, hid, hh]
  · left; simp [processEvent, hid]

lemma foldl_processEvent_shift (taskId : String) (gl : String → Result TaskLifecycle String)
    (events : List TaskLifecycleEvent) (cs : List Settled) :
    events.foldl (processEvent taskId gl) ⟨false, cs⟩ =
      ⟨(events.foldl (processEvent taskId gl) ⟨false, []⟩).closed,
        cs ++ (events.foldl (processEvent taskId gl) ⟨false, []⟩).calls⟩ := by
  induction events generalizing cs with
  | nil => simp
  | cons ev rest ih =>
      rcases processEvent_open_cases taskId gl cs ev with h | ⟨s, hid, hh, h⟩
      · have h0 : processEvent taskId gl ⟨false, []⟩ ev = ⟨false, []⟩ := by
          rcases processEvent_open_cases taskId gl [] ev with h0 | ⟨s, hid, hh, h0⟩
          · exact h0
          · exfalso
            have : processEvent taskId gl ⟨false, cs⟩ ev = ⟨true, cs ++ [s]⟩ := by
              simp [processEvent, hid, hh]
            rw [h] at this
            exact absurd (congrArg SubState.closed this) (by simp)
        rw [List.foldl_cons, h, List.foldl_cons, h0, ih]
      · have h0 : processEvent taskId gl ⟨false, []⟩ ev = ⟨true, [s]⟩ := by
          simp [processEvent, hid, hh]
        rw [List.foldl_cons, h, List.foldl_cons, h0,
          foldl_processEvent_closed taskId gl _ rest rfl,
          foldl_processEvent_closed taskId gl _ rest rfl]

lemma settleCalls_append (taskId : String) (gl : String → Result TaskLifecycle String)
    (l₁ l₂ : List TaskLifecycleEvent) :
    settleCalls taskId gl (l₁ ++ l₂) =
      if (l₁.foldl (processEvent taskId gl) ⟨false, []⟩).closed then
        settleCalls taskId gl l₁
      else
        settleCalls taskId gl l₁ ++ settleCalls taskId gl l₂ := by
  unfold settleCalls
  rw [List.foldl_append]
  cases hcl : (l₁.foldl (processEvent taskId gl) ⟨false, []⟩).closed with
  | true =>
      simp only [if_pos]
      rw [foldl_processEvent_closed taskId gl _ l₂]
      · exact hcl
  | false =>
      simp only [Bool.false_eq_true, if_neg, not_false_iff]
      have : l₁.foldl (processEvent taskId gl) ⟨false, []⟩ =
          ⟨false, (l₁.foldl (processEvent taskId gl) ⟨false, []⟩).calls⟩ := by
        cases h : l₁.foldl (processEvent taskId gl) ⟨false, []⟩ with
        | mk c cs => rw [h] at hcl; simp at hcl; simp [hcl]
      rw [this, foldl_processEvent_shift]

lemma settleCalls_length_le_one (taskId : String) (gl : String → Result TaskLifecycle String)
    (events : List TaskLifecycleEvent) :
    (settleCalls taskId gl events).length ≤ 1 := by
  unfold settleCalls
  induction events with
  | nil => simp
  | cons ev rest ih =>
      rw [List.foldl_cons]
      rcases processEvent_open_cases taskId gl [] ev with h | ⟨s, _, _, h⟩
      · rw [h]; exact ih
      · rw [h, foldl_processEvent_closed taskId gl _ rest rfl]
        simp

lemma settleCalls_filter (taskId : String) (gl : String → Result TaskLifecycle String)
    (events : List TaskLifecycleEvent) :
    settleCalls taskId gl events =
      settleCalls taskId gl (events.filter (fun ev => ev.id = taskId)) := by
  unfold settleCalls
  congr 1
  induction events with
  | nil => rfl
  | cons ev rest ih =>
      by_cases hid : ev.id = taskId
      · rw [List.filter_cons_of_pos (by simpa using hid), List.foldl_cons, List.foldl_cons]
        by_cases hcl : (processEvent taskId gl ⟨false, []⟩ ev).closed = true
        · rw [foldl_processEvent_closed taskId gl _ rest hcl,
            foldl_processEvent_closed taskId gl _ _ hcl]
        · have : processEvent taskId gl ⟨false, []⟩ ev = ⟨false, []⟩ := by
            rcases processEvent_open_cases taskId gl [] ev with h | ⟨s, _, _, h⟩
            · exact h
            · rw [h] at hcl; simp at hcl
          rw [this, ih]
      · rw [List.filter_cons_of_neg (by simpa using hid), List.foldl_cons]
        have : processEvent taskId gl ⟨false, []⟩ ev = ⟨false, []⟩ := by
          simp [processEvent, hid]
        rw [this, ih]

lemma processEvent_of_handleEvent_none (taskId : String)
    (gl : String → Result TaskLifecycle String) (st : SubState) (ev : TaskLifecycleEvent)
    (h : handleEvent taskId gl ev = none) : processEvent taskId gl st ev = st := by
  unfold processEvent
  by_cases hcl : st.closed
  · simp [hcl]
  · by_cases hid : ev.id = taskId
    · simp [hcl, hid, h]
    · simp [hcl, hid]

lemma settleCalls_ignores_nonterminal (taskId : String)
    (gl : String → Result TaskLifecycle String) (l₁ l₂ : List TaskLifecycleEvent)
    (ev : TaskLifecycleEvent) (h : handleEvent taskId gl ev = none) :
    settleCalls taskId gl (l₁ ++ ev :: l₂) = settleCalls taskId gl (l₁ ++ l₂) := by
  unfold settleCalls
  rw [List.foldl_append, List.foldl_cons, List.foldl_append,
    processEvent_of_handleEvent_none taskId gl _ ev h]

lemma settleCalls_empty_state (taskId : String) (gl : String → Result TaskLifecycle String)
    (events : List TaskLifecycleEvent) (h : settleCalls taskId gl events = []) :
    events.foldl (processEvent taskId gl) ⟨false, []⟩ = ⟨false, []⟩ := by
  unfold settleCalls at h
  induction events with
  | nil => rfl
  | cons ev rest ih =>
      rw [List.foldl_cons] at h ⊢
      rcases processEvent_open_cases taskId gl [] ev with h0 | ⟨s, _, _, h0⟩
      · rw [h0] at h ⊢; exact ih h
      · rw [h0, foldl_processEvent_closed taskId gl _ rest rfl] at h
        simp at h

lemma settleCalls_first_terminal (taskId : String) (gl : String → Result TaskLifecycle String)
    (l₁ rest : List TaskLifecycleEvent) (ev : TaskLifecycleEvent) (s : Settled)
    (hempty : settleCalls taskId gl l₁ = []) (hid : ev.id = taskId)
    (hterm : handleEvent taskId gl ev = some s) :
    settleCalls taskId gl (l₁ ++ ev :: rest) = [s] := by
  unfold settleCalls
  rw [List.foldl_append, settleCalls_empty_state taskId gl l₁ hempty, List.foldl_cons]
  have h0 : processEvent taskId gl ⟨false, []⟩ ev = ⟨true, [s]⟩ := by
    simp [processEvent, hid, hterm]
  rw [h0, foldl_processEvent_closed taskId gl _ rest rfl]

/- Helper lemmas about substring occurrence in interpolated messages. -/

lemma infix_append_cases {α : Type} (p x y : List α) (h : p <:+: x ++ y) :
    p <:+: x ∨ p <:+: y ∨
      ∃ p₁ p₂, p = p₁ ++ p₂ ∧ p₁ ≠ [] ∧ p₂ ≠ [] ∧ p₁ <:+ x ∧ p₂ <+: y := by
  obtain ⟨s, t, hst⟩ := h
  rw [List.append_assoc] at hst
  rcases List.append_eq_append_iff.mp hst with ⟨m, hx, hpt⟩ | ⟨m, hs, hy⟩
  · rcases List.append_eq_append_iff.mp hpt with ⟨b, hm, _⟩ | ⟨b, hp, hyb⟩
    · left
      exact ⟨s, b, by rw [hx, hm, List.append_assoc]⟩
    · rcases eq_or_ne m [] with hm0 | hm0
      · right; left
        exact List.IsPrefix.isInfix ⟨t, by rw [hp, hm0, List.nil_append, ← hyb]⟩
      · rcases eq_or_ne b [] with hb0 | hb0
        · left
          refine List.IsSuffix.isInfix ⟨s, ?_⟩
          rw [hp, hb0, List.append_nil, hx]
        · right; right
          exact ⟨m, b, hp, hm0, hb0, ⟨s, hx.symm⟩, ⟨t, hyb.symm⟩⟩
  · right; left
    exact ⟨m, t, by rw [hy, List.append_assoc]⟩

lemma not_infix_cons_of_not_mem {α : Type} (p y : List α) (c : α) (hne : p ≠ [])
    (hc : c ∉ p) (hy : ¬ p <:+: y) : ¬ p <:+: c :: y := by
  intro h
  obtain ⟨s, t, hst⟩ := h
  cases s with
  | nil =>
      rw [List.nil_append] at hst
      cases p with
      | nil => exact hne rfl
      | cons d ds =>
          rw [List.cons_append] at hst
          exact hc (by rw [List.head_eq_of_cons_eq hst]; exact List.mem_cons_self _ _)
  | cons e es =>
      rw [List.cons_append, List.cons_append] at hst
      exact hy ⟨es, t, List.tail_eq_of_cons_eq hst⟩

lemma not_infix_sandwich {α : Type} (p x y : List α) (c : α) (hne : p ≠ []) (hc : c ∉ p)
    (hx : ¬ p <:+: x) (hy : ¬ p <:+: y) : ¬ p <:+: x ++ c :: y := by
  intro h
  rcases infix_append_cases p x (c :: y) h with h1 | h1 | ⟨p₁, p₂, hp, h1ne, h2ne, _, hpre⟩
  · exact hx h1
  · exact not_infix_cons_of_not_mem p y c hne hc hy h1
  · obtain ⟨t, ht⟩ := hpre
    cases p₂ with
    | nil => exact h2ne rfl
    | cons d ds =>
        rw [List.cons_append] at ht
        apply hc
        rw [hp, List.head_eq_of_cons_eq ht]
        exact List.mem_append_right _ (List.mem_cons_self _ _)

/-- A phrase that avoids the quote character and does not occur in the fixed
prefix, the interpolated task id, or the fixed tail, does not occur in a
message of the shape `a ++ '"' ++ taskId ++ '"' ++ bTail`. -/
lemma notIncludes_quoted (phrase aStr taskId bTail msg : String)
    (hdata : msg.data = aStr.data ++ '"' :: (taskId.data ++ '"' :: bTail.data))
    (hne : phrase.data ≠ []) (hq : '"' ∉ phrase.data)
    (ha : ¬ phrase.data <:+: aStr.data) (hid : ¬ includes taskId phrase)
    (hb : ¬ phrase.data <:+: bTail.data) :
    ¬ includes msg phrase := by
  unfold includes
  rw [hdata]
  exact not_infix_sandwich phrase.data aStr.data _ '"' hne hq ha
    (not_infix_sandwich phrase.data taskId.data bTail.data '"' hne hq hid hb)

/-- A phrase occurs in a message as soon as the message decomposes around the
phrase's own characters. -/
lemma includes_of_data_decomp (msg seg : String) (x y : List Char)
    (h : msg.data = x ++ seg.data ++ y) : includes msg seg :=
  ⟨x, y, h.symm⟩

lemma includes_append_right (a b phrase : String) (h : includes b phrase) :
    includes (a ++ b) phrase := by
  unfold includes at h ⊢
  rw [String.data_append]
  exact h.trans (List.suffix_append a.data b.data).isInfix

lemma includes_append_left (a b phrase : String) (h : includes a phrase) :
    includes (a ++ b) phrase := by
  unfold includes at h ⊢
  rw [String.data_append]
  exact h.trans (List.prefix_append a.data b.data).isInfix

lemma includes_append_suffix (a b : String) : includes (a ++ b) b := by
  unfold includes
  rw [String.data_append]
  exact (List.suffix_append a.data b.data).isInfix

lemma data_notFoundMessage (taskId : String) :
    (notFoundMessage taskId).data =
      "Failed to run task ".data ++ '"' ::
        (taskId.data ++ '"' :: " as it does not exist".data) := by
  have h1 : "Failed to run task \"".data = "Failed to run task ".data ++ ['"'] := rfl
  have h2 : "\" as it does not exist".data = '"' :: " as it does not exist".data := rfl
  unfold notFoundMessage
  rw [String.data_append, String.data_append, h1, h2]
  simp [List.append_assoc]

lemma data_currentlyRunningMessage (taskId : String) :
    (currentlyRunningMessage taskId).data =
      "Failed to run task ".data ++ '"' ::
        (taskId.data ++ '"' :: " as it is currently running".data) := by
  have h1 : "Failed to run task \"".data = "Failed to run task ".data ++ ['"'] := rfl
  have h2 : "\" as it is currently running".data = '"' :: " as it is currently running".data := rfl
  unfold currentlyRunningMessage
  rw [String.data_append, String.data_append, h1, h2]
  simp [List.append_assoc]

lemma data_unknownReasonMessage (taskId : String) (lc : TaskLifecycle) :
    (unknownReasonMessage taskId lc).data =
      "Failed to run task ".data ++ '"' ::
        (taskId.data ++ '"' ::
          (" for unknown reason (Current Task Lifecycle is \"" ++ lc.toStr ++ "\")").data) := by
  have h1 : "Failed to run task \"".data = "Failed to run task ".data ++ ['"'] := rfl
  have h2 : "\" for unknown reason (Current Task Lifecycle is \"".data =
      '"' :: " for unknown reason (Current Task Lifecycle is \"".data := rfl
  unfold unknownReasonMessage
  rw [String.data_append, String.data_append, String.data_append, String.data_append, h1, h2,
    String.data_append, String.data_append]
  simp [List.append_assoc]

/- The claims. -/

/-- Claim C10: the `Result` sum type dispatches exclusively by tag: for every
value `v`, `isOk(asOk(v))` holds and `isErr(asOk(v))` does not; for every
error `e`, `isErr(asErr(e))` holds and `isOk(asErr(e))` does not; and for
every result `r` and handlers, `resolve` (and hence `either`) invokes exactly
one handler, returning `onOk v` on `asOk v` and `onErr e` on `asErr e`. -/
theorem resultTypeDispatchesByTag :
    ∀ (T E R : Type) (v : T) (e : E) (r : Result T E) (onOk : T → R) (onErr : E → R),
      isOk (asOk v : Result T E) = true ∧ isErr (asOk v : Result T E) = false ∧
      isErr (asErr e : Result T E) = true ∧ isOk (asErr e : Result T E) = false ∧
      resolve (asOk v : Result T E) onOk onErr = onOk v ∧
      resolve (asErr e : Result T E) onOk onErr = onErr e ∧
      ((∃ w, r = asOk w ∧ resolve r onOk onErr = onOk w) ∨
        (∃ err, r = asErr err ∧ resolve r onOk onErr = onErr err)) ∧
      (∀ (uOk : T → Unit) (uErr : E → Unit), either r uOk uErr = resolve r uOk uErr) := by
  intro T E R v e r onOk onErr
  refine ⟨rfl, rfl, rfl, rfl, rfl, rfl, ?_, fun uOk uErr => rfl⟩
  cases r with
  | Ok w => exact Or.inl ⟨w, rfl, rfl⟩
  | Err err => exact Or.inr ⟨err, rfl, rfl⟩

/-- Claim C6: the poller's work-phase timeout is
`pollInterval * maxPollInactivityCycles` and the monitor's inactivity timeout
is `pollInterval * (maxPollInactivityCycles + 1)` — exactly one poll interval
longer than the work timeout. -/
theorem pollerTimeoutWiring :
    ∀ config : TaskManagerConfig,
      (taskManagerPollerWiring config).1.workTimeout =
          config.poll_interval * config.max_poll_inactivity_cycles ∧
      (taskManagerPollerWiring config).2.inactivityTimeout =
          config.poll_interval * (config.max_poll_inactivity_cycles + 1) ∧
      (taskManagerPollerWiring config).2.inactivityTimeout =
          (taskManagerPollerWiring config).1.workTimeout + config.poll_interval := by
  intro config
  refine ⟨rfl, rfl, ?_⟩
  show config.poll_interval * (config.max_poll_inactivity_cycles + 1) =
    config.poll_interval * config.max_poll_inactivity_cycles + config.poll_interval
  ring

/-- Claim C5: `ensureScheduled` returns the supplied task instance when the
underlying `schedule` call fails with the version-conflict status, behaves
identically to `schedule` when the call succeeds, and rethrows every error
whose status code is not the version-conflict status. -/
theorem ensureScheduledIdempotence :
    ∀ (schedule : TaskInstanceWithId → Except SchedulingError TaskInstanceWithId)
      (taskInstance doc : TaskInstanceWithId) (err : SchedulingError),
      (schedule taskInstance = .ok doc →
        ensureScheduled schedule taskInstance = .ok doc) ∧
      (schedule taskInstance = .error err → err.statusCode = some VERSION_CONFLICT_STATUS →
        ensureScheduled schedule taskInstance = .ok taskInstance) ∧
      (schedule taskInstance = .error err → err.statusCode ≠ some VERSION_CONFLICT_STATUS →
        ensureScheduled schedule taskInstance = .error err) := by
  intro schedule taskInstance doc err
  refine ⟨fun h => ?_, fun h hsc => ?_, fun h hsc => ?_⟩
  · simp [ensureScheduled, h]
  · simp [ensureScheduled, h, hsc]
  · simp [ensureScheduled, h, hsc]

/-- A `schedule` stub that always fails with the version-conflict status. -/
def scheduleConflictStub : TaskInstanceWithId → Except SchedulingError TaskInstanceWithId :=
  fun _ => .error ⟨some 409, "version conflict"⟩

/-- Witness for claim C5 at a concrete task instance and a concrete
conflicting `schedule`. -/
theorem ensureScheduledIdempotenceWitness :
    ensureScheduled scheduleConflictStub ⟨"t1", "sample", "p"⟩ = .ok ⟨"t1", "sample", "p"⟩ :=
  (ensureScheduledIdempotence scheduleConflictStub ⟨"t1", "sample", "p"⟩ ⟨"t1", "sample", "p"⟩
    ⟨some 409, "version conflict"⟩).2.1 rfl rfl

/-- Claim C8: after the task manager has started, `addMiddleware` and
`registerTaskDefinitions` on the setup contract throw; before start both
succeed and take effect. -/
theorem registrationLockedAfterStart :
    ∀ (M D : Type) (st : TaskManagerPluginState M D) (m : M) (defs : List (String × D)),
      (st.isStarted = true →
        addMiddleware st m =
          .error "Cannot add Middleware after the task manager has started" ∧
        registerTaskDefinitions st defs =
          .error "Cannot register task definitions after the task manager has started") ∧
      (st.isStarted = false →
        addMiddleware st m =
          .ok { st with middleware := addMiddlewareToChain st.middleware m } ∧
        m ∈ addMiddlewareToChain st.middleware m ∧
        registerTaskDefinitions st defs =
          .ok { st with
            definitions := registerTaskDefinitionsInDictionary st.definitions defs } ∧
        ∀ d ∈ defs, d ∈ registerTaskDefinitionsInDictionary st.definitions defs) := by
  intro M D st m defs
  constructor
  · intro h
    constructor
    · simp [addMiddleware, assertStillInSetup, h]
    · simp [registerTaskDefinitions, assertStillInSetup, h]
  · intro h
    refine ⟨?_, ?_, ?_, ?_⟩
    · simp [addMiddleware, assertStillInSetup, h]
    · simp [addMiddlewareToChain]
    · simp [registerTaskDefinitions, assertStillInSetup, h]
    · intro d hd
      simp [registerTaskDefinitionsInDictionary, hd]

/-- Witness for claim C8: a started facade rejects registration, a facade
still in setup accepts it. -/
theorem registrationLockedAfterStartWitness :
    (addMiddleware (⟨[], [], some true⟩ : TaskManagerPluginState String Nat) "mw" =
        .error "Cannot add Middleware after the task manager has started") ∧
      addMiddleware (⟨[], [], none⟩ : TaskManagerPluginState String Nat) "mw" =
        .ok ⟨["mw"], [], none⟩ :=
  ⟨(registrationLockedAfterStart String Nat ⟨[], [], some true⟩ "mw" []).1 rfl |>.1,
    (registrationLockedAfterStart String Nat ⟨[], [], none⟩ "mw" []).2 rfl |>.1⟩

/-- Claim C9: with no available workers the work phase issues no claim call
and yields no tasks (its outcome does not depend on the store at all); with
`n > 0` available workers the single claim request has `size = n` and carries
the first at-most-`n` buffered task ids, the excess being withheld. -/
theorem pollForWorkRespectsCapacity :
    ∀ (tasksToClaim : List String)
      (claim claim' : OwnershipClaimingOpts → Except StoreError ClaimOwnershipResult)
      (now availableWorkers : Nat),
      (availableWorkers = 0 →
        (pollForWork tasksToClaim availableWorkers claim now).claimCalls = [] ∧
        (pollForWork tasksToClaim availableWorkers claim now).result = .ok [] ∧
        pollForWork tasksToClaim availableWorkers claim now =
          pollForWork tasksToClaim availableWorkers claim' now) ∧
      (0 < availableWorkers →
        (pollForWork tasksToClaim availableWorkers claim now).claimCalls =
          [⟨availableWorkers, now + 30000, tasksToClaim.take availableWorkers⟩] ∧
        (tasksToClaim.take availableWorkers).length ≤ availableWorkers) := by
  intro tasksToClaim claim claim' now availableWorkers
  constructor
  · intro h
    subst h
    exact ⟨rfl, rfl, rfl⟩
  · intro h
    constructor
    · unfold pollForWork claimAvailableTasks
      rw [if_pos h]
      cases claim ⟨availableWorkers, now + 30000, tasksToClaim.take availableWorkers⟩ with
      | ok r => rfl
      | error ex =>
          by_cases hscript : includes (identifyEsError ex) "cannot execute [inline] scripts"
          · simp [hscript]
          · simp [hscript]
    · rw [List.length_take]
      exact min_le_left _ _

/-- A claim stub used in witnesses: two eligible tasks, both materialized. -/
def claimStubOk : OwnershipClaimingOpts → Except StoreError ClaimOwnershipResult :=
  fun _ => .ok ⟨[⟨"t1", .claiming⟩, ⟨"t2", .claiming⟩], 2⟩

/-- Witness for claim C9: a zero-capacity cycle issues no claim request, a
two-worker cycle issues one request with `size = 2` and the first two of
three buffered ids. -/
theorem pollForWorkRespectsCapacityWitness :
    (pollForWork ["a", "b", "c"] 0 claimStubOk 1000).claimCalls = [] ∧
      (pollForWork ["a", "b", "c"] 2 claimStubOk 1000).claimCalls =
        [⟨2, 31000, ["a", "b"]⟩] :=
  ⟨((pollForWorkRespectsCapacity ["a", "b", "c"] claimStubOk claimStubOk 1000 0).1 rfl).1,
    ((pollForWorkRespectsCapacity ["a", "b", "c"] claimStubOk claimStubOk 1000 2).2
      (by decide)).1⟩

/-- Claim C4: a store error raised during the claim call that is identified
as the inline-scripts-disabled condition is not rethrown and not retried —
the cycle logs a warning and yields no documents (and the store was asked
exactly once); every other store error propagates to the caller. -/
theorem claimCycleInlineScriptError :
    ∀ (claimTasksById : List String)
      (claim : OwnershipClaimingOpts → Except StoreError ClaimOwnershipResult)
      (availableWorkers now : Nat) (ex : StoreError),
      0 < availableWorkers →
      claim ⟨availableWorkers, now + 30000, claimTasksById⟩ = .error ex →
      (includes (identifyEsError ex) "cannot execute [inline] scripts" →
        (claimAvailableTasks claimTasksById claim availableWorkers now).result = .ok [] ∧
        (claimAvailableTasks claimTasksById claim availableWorkers now).warnLogs =
          [inlineScriptsDisabledWarning] ∧
        (claimAvailableTasks claimTasksById claim availableWorkers now).claimCalls.length = 1) ∧
      (¬ includes (identifyEsError ex) "cannot execute [inline] scripts" →
        (claimAvailableTasks claimTasksById claim availableWorkers now).result = .error ex) := by
  intro claimTasksById claim availableWorkers now ex hpos hclaim
  unfold claimAvailableTasks
  rw [if_pos hpos, hclaim]
  dsimp only
  constructor
  · intro hscript
    rw [if_pos hscript]
    exact ⟨rfl, rfl, rfl⟩
  · intro hscript
    rw [if_neg hscript]

/-- A claim stub that fails with the inline-scripts-disabled diagnostic. -/
def claimStubInlineScriptError : OwnershipClaimingOpts → Except StoreError ClaimOwnershipResult :=
  fun _ => .error ⟨"es error: cannot execute [inline] scripts on this cluster"⟩

/-- Witness for claim C4 at a concrete inline-scripts-disabled store error. -/
theorem claimCycleInlineScriptErrorWitness :
    (claimAvailableTasks ["a"] claimStubInlineScriptError 3 1000).result = .ok [] ∧
      (claimAvailableTasks ["a"] claimStubInlineScriptError 3 1000).warnLogs =
        [inlineScriptsDisabledWarning] :=
  ⟨((claimCycleInlineScriptError ["a"] claimStubInlineScriptError 3 1000
        ⟨"es error: cannot execute [inline] scripts on this cluster"⟩
        (by decide) rfl).1 (by decide)).1,
    ((claimCycleInlineScriptError ["a"] claimStubInlineScriptError 3 1000
        ⟨"es error: cannot execute [inline] scripts on this cluster"⟩
        (by decide) rfl).1 (by decide)).2.1⟩

/-- Claim C7: when the store's reported update count disagrees with the
number of materialized documents, the cycle logs a warning naming both
counts and still returns the documents unchanged; when they agree no warning
is logged. -/
theorem claimCycleCountMismatchWarning :
    ∀ (claimTasksById : List String)
      (claim : OwnershipClaimingOpts → Except StoreError ClaimOwnershipResult)
      (availableWorkers now : Nat) (r : ClaimOwnershipResult),
      0 < availableWorkers →
      claim ⟨availableWorkers, now + 30000, claimTasksById⟩ = .ok r →
      (claimAvailableTasks claimTasksById claim availableWorkers now).result = .ok r.docs ∧
      (r.docs.length ≠ r.claimedTasks →
        (claimAvailableTasks claimTasksById claim availableWorkers now).warnLogs =
          [taskOwnershipWarning r.claimedTasks r.docs] ∧
        includes (taskOwnershipWarning r.claimedTasks r.docs) (toString r.claimedTasks) ∧
        includes (taskOwnershipWarning r.claimedTasks r.docs) (toString r.docs.length)) ∧
      (r.docs.length = r.claimedTasks →
        (claimAvailableTasks claimTasksById claim availableWorkers now).warnLogs = []) := by
  intro claimTasksById claim availableWorkers now r hpos hclaim
  unfold claimAvailableTasks
  rw [if_pos hpos, hclaim]
  dsimp only
  refine ⟨rfl, fun hne => ⟨by rw [if_pos hne], ?_, ?_⟩, fun heq => by rw [if_neg (by simp [heq])]⟩
  · unfold taskOwnershipWarning
    exact includes_append_left _ _ _ (includes_append_left _ _ _ (includes_append_left _ _ _
      (includes_append_left _ _ _ (includes_append_left _ _ _
        (includes_append_suffix _ _)))))
  · unfold taskOwnershipWarning
    exact includes_append_left _ _ _ (includes_append_left _ _ _ (includes_append_left _ _ _
      (includes_append_suffix _ _)))

/-- A claim stub whose update count disagrees with the materialized docs. -/
def claimStubMiscount : OwnershipClaimingOpts → Except StoreError ClaimOwnershipResult :=
  fun _ => .ok ⟨[⟨"t1", .claiming⟩], 2⟩

/-- Witness for claim C7 at a concrete disagreeing claim result. -/
theorem claimCycleCountMismatchWarningWitness :
    (claimAvailableTasks ["a"] claimStubMiscount 3 1000).result = .ok [⟨"t1", .claiming⟩] ∧
      (claimAvailableTasks ["a"] claimStubMiscount 3 1000).warnLogs =
        [taskOwnershipWarning 2 [⟨"t1", .claiming⟩]] :=
  ⟨(claimCycleCountMismatchWarning ["a"] claimStubMiscount 3 1000 ⟨[⟨"t1", .claiming⟩], 2⟩
      (by decide) rfl).1,
    ((claimCycleCountMismatchWarning ["a"] claimStubMiscount 3 1000 ⟨[⟨"t1", .claiming⟩], 2⟩
      (by decide) rfl).2.1 (by decide)).1⟩

/-- Claim C2: the `runNow` promise is settled at most once over any event
sequence: the stream is filtered by `taskId`, a closed subscription ignores
further events, `MarkRunning(Ok)` never settles the promise, and the first
terminal event settles it and unsubscribes (later events are irrelevant). -/
theorem runNowSettlesAtMostOnce :
    ∀ (taskId : String) (getLifecycle : String → Result TaskLifecycle String),
      (∀ events, (settleCalls taskId getLifecycle events).length ≤ 1) ∧
      (∀ events, settleCalls taskId getLifecycle events =
        settleCalls taskId getLifecycle (events.filter (fun ev => ev.id = taskId))) ∧
      (∀ l₁ l₂ (inst : ConcreteTaskInstance),
        settleCalls taskId getLifecycle
            (l₁ ++ .taskMarkRunning taskId (asOk inst) :: l₂) =
          settleCalls taskId getLifecycle (l₁ ++ l₂)) ∧
      (∀ st ev, st.closed = true → processEvent taskId getLifecycle st ev = st) ∧
      (∀ l₁ rest ev s, settleCalls taskId getLifecycle l₁ = [] → ev.id = taskId →
        handleEvent taskId getLifecycle ev = some s →
        settleCalls taskId getLifecycle (l₁ ++ ev :: rest) = [s]) := by
  intro taskId getLifecycle
  refine ⟨settleCalls_length_le_one taskId getLifecycle,
    settleCalls_filter taskId getLifecycle,
    fun l₁ l₂ inst => settleCalls_ignores_nonterminal taskId getLifecycle l₁ l₂ _ rfl,
    processEvent_closed taskId getLifecycle,
    fun l₁ rest ev s h1 h2 h3 =>
      settleCalls_first_terminal taskId getLifecycle l₁ rest ev s h1 h2 h3⟩

/-- A `getLifecycle` stub reporting the task as idle. -/
def idleLifecycleStub : String → Result TaskLifecycle String :=
  fun _ => asOk TaskStatus.idle.toLifecycle

/-- Witness for claim C2: over a concrete stream holding a foreign event, an
ignored `MarkRunning(Ok)` and two terminal events for the task, exactly the
first terminal event settles the promise. -/
theorem runNowSettlesAtMostOnceWitness :
    settleCalls "t1" idleLifecycleStub
        ([.taskMarkRunning "t1" (asOk ⟨"t1", .running⟩), .taskRun "other" (asOk ⟨"other", .running⟩)] ++
          .taskRun "t1" (asOk ⟨"t1", .running⟩) :: [.taskRun "t1" (asErr "late")]) =
      [.resolved ⟨"t1"⟩] :=
  (runNowSettlesAtMostOnce "t1" idleLifecycleStub).2.2.2.2
    [.taskMarkRunning "t1" (asOk ⟨"t1", .running⟩), .taskRun "other" (asOk ⟨"other", .running⟩)]
    [.taskRun "t1" (asErr "late")] (.taskRun "t1" (asOk ⟨"t1", .running⟩)) (.resolved ⟨"t1"⟩)
    (by decide) (by decide) (by decide)

/-- Claim C1: after any prefix that has not settled the promise, a `Run(Ok)`
event for the task resolves it with `{ id: taskId }`, while a
`RunRequest(Err)` rejects it with the capacity message, and `Claim(Err)` or
`Run(Err)` reject it. -/
theorem runNowPromiseOutcomes :
    ∀ (taskId : String) (getLifecycle : String → Result TaskLifecycle String)
      (prior rest : List TaskLifecycleEvent) (inst : ConcreteTaskInstance)
      (optInst : Option ConcreteTaskInstance) (e : String),
      settleCalls taskId getLifecycle prior = [] →
      (inst.id = taskId →
        settleCalls taskId getLifecycle (prior ++ .taskRun taskId (asOk inst) :: rest) =
          [.resolved ⟨taskId⟩]) ∧
      (settleCalls taskId getLifecycle
          (prior ++ .taskRunRequest taskId (asErr e) :: rest) =
        [.rejected (capacityMessage taskId)] ∧
        includes (capacityMessage taskId) "Task Manager is at capacity") ∧
      (settleCalls taskId getLifecycle (prior ++ .taskClaim taskId (asErr optInst) :: rest) =
        [.rejected (claimErrorMessage taskId
          (claimErrorLifecycle taskId getLifecycle optInst))]) ∧
      (settleCalls taskId getLifecycle (prior ++ .taskRun taskId (asErr e) :: rest) =
        [.rejected (runFailedMessage taskId e)]) := by
  intro taskId getLifecycle prior rest inst optInst e hprior
  refine ⟨fun hid => ?_, ⟨?_, ?_⟩, ?_, ?_⟩
  · have h := settleCalls_first_terminal taskId getLifecycle prior rest
      (.taskRun taskId (asOk inst)) (.resolved ⟨inst.id⟩) hprior rfl rfl
    rw [hid] at h
    exact h
  · exact settleCalls_first_terminal taskId getLifecycle prior rest
      (.taskRunRequest taskId (asErr e)) (.rejected (capacityMessage taskId)) hprior rfl rfl
  · exact includes_append_right _ _ _ (by decide)
  · exact settleCalls_first_terminal taskId getLifecycle prior rest
      (.taskClaim taskId (asErr optInst))
      (.rejected (claimErrorMessage taskId (claimErrorLifecycle taskId getLifecycle optInst)))
      hprior rfl rfl
  · exact settleCalls_first_terminal taskId getLifecycle prior rest
      (.taskRun taskId (asErr e)) (.rejected (runFailedMessage taskId e)) hprior rfl rfl

/-- Witness for claim C1: a concrete stream where the claim succeeds and the
run completes resolves the promise with the task's id. -/
theorem runNowPromiseOutcomesWitness :
    settleCalls "t1" idleLifecycleStub
        ([.taskClaim "t1" (asOk ⟨"t1", .claiming⟩)] ++
          .taskRun "t1" (asOk ⟨"t1", .idle⟩) :: []) =
      [.resolved ⟨"t1"⟩] :=
  (runNowPromiseOutcomes "t1" idleLifecycleStub [.taskClaim "t1" (asOk ⟨"t1", .claiming⟩)]
    [] ⟨"t1", .idle⟩ none "boom" (by decide)).1 rfl

/-- A `getLifecycle` stub reporting the task as claiming. -/
def claimingLifecycleStub : String → Result TaskLifecycle String :=
  fun _ => asOk TaskStatus.claiming.toLifecycle

/-- A `getLifecycle` stub reporting the task as missing. -/
def notFoundLifecycleStub : String → Result TaskLifecycle String :=
  fun _ => asOk TaskLifecycle.notFound

/-- Claim C3, counterexample: on a `Claim(Err)` for task `t1` whose lifecycle
is `claiming` — not `running` — the rejection message still contains
"currently running", so the message contains that phrase in a state other
than `running`. -/
theorem runNowClaimErrorCounterexample :
    settleCalls "t1" claimingLifecycleStub [.taskClaim "t1" (asErr none)] =
        [.rejected (currentlyRunningMessage "t1")] ∧
      includes (currentlyRunningMessage "t1") "currently running" ∧
      claimingLifecycleStub "t1" = asOk (TaskLifecycle.st TaskStatus.claiming) ∧
      TaskLifecycle.st TaskStatus.claiming ≠ TaskLifecycle.st TaskStatus.running := by
  refine ⟨?_, by decide, rfl, by decide⟩
  rfl

/-- Claim C3 (amended): a `Claim`-phase `Err` for the requested task rejects
`runNow` with a message determined by the lifecycle `getLifecycle` returns:
it contains "does not exist" exactly when the status is `NotFound`, and
contains "currently running" exactly when the status is `Running` or
`Claiming`; the remaining statuses yield the generic unknown-reason
message. -/
theorem runNowClaimErrorDiagnostics :
    ∀ (taskId : String) (getLifecycle : String → Result TaskLifecycle String)
      (prior rest : List TaskLifecycleEvent) (lc : TaskLifecycle),
      settleCalls taskId getLifecycle prior = [] →
      getLifecycle taskId = asOk lc →
      ¬ includes taskId "does not exist" →
      ¬ includes taskId "currently running" →
      ∃ msg,
        settleCalls taskId getLifecycle
            (prior ++ .taskClaim taskId (asErr none) :: rest) =
          [.rejected msg] ∧
        (includes msg "does not exist" ↔ lc = TaskLifecycle.notFound) ∧
        (includes msg "currently running" ↔
          (lc = TaskStatus.running.toLifecycle ∨ lc = TaskStatus.claiming.toLifecycle)) ∧
        (lc ≠ TaskLifecycle.notFound → lc ≠ TaskStatus.running.toLifecycle →
          lc ≠ TaskStatus.claiming.toLifecycle → msg = unknownReasonMessage taskId lc) := by
  intro taskId getLifecycle prior rest lc hprior hgl hid1 hid2
  refine ⟨claimErrorMessage taskId (asOk lc), ?_, ?_, ?_, ?_⟩
  · have h := settleCalls_first_terminal taskId getLifecycle prior rest
      (.taskClaim taskId (asErr none))
      (.rejected (claimErrorMessage taskId (claimErrorLifecycle taskId getLifecycle none)))
      hprior rfl rfl
    rw [show claimErrorLifecycle taskId getLifecycle none = asOk lc from hgl] at h
    exact h
  · cases lc with
    | notFound =>
        refine iff_of_true ?_ rfl
        have hmsg : claimErrorMessage taskId (asOk TaskLifecycle.notFound) =
            notFoundMessage taskId := by
          simp [claimErrorMessage, asOk]
        rw [hmsg]
        exact includes_append_right _ _ _ (by decide)
    | st s =>
        cases s with
        | running =>
            have hmsg : claimErrorMessage taskId (asOk (TaskLifecycle.st TaskStatus.running)) =
                currentlyRunningMessage taskId := by
              simp [claimErrorMessage, asOk, TaskStatus.toLifecycle]
            rw [hmsg]
            refine iff_of_false ?_ (by simp [TaskStatus.toLifecycle])
            exact notIncludes_quoted "does not exist" "Failed to run task " taskId
              " as it is currently running" _ (data_currentlyRunningMessage taskId)
              (by decide) (by decide) (by decide) hid1 (by decide)
        | claiming =>
            have hmsg : claimErrorMessage taskId (asOk (TaskLifecycle.st TaskStatus.claiming)) =
                currentlyRunningMessage taskId := by
              simp [claimErrorMessage, asOk, TaskStatus.toLifecycle]
            rw [hmsg]
            refine iff_of_false ?_ (by simp [TaskStatus.toLifecycle])
            exact notIncludes_quoted "does not exist" "Failed to run task " taskId
              " as it is currently running" _ (data_currentlyRunningMessage taskId)
              (by decide) (by decide) (by decide) hid1 (by decide)
        | idle =>
            have hmsg : claimErrorMessage taskId (asOk (TaskLifecycle.st TaskStatus.idle)) =
                unknownReasonMessage taskId TaskStatus.idle.toLifecycle := by
              simp [claimErrorMessage, asOk, TaskStatus.toLifecycle]
            rw [hmsg]
            refine iff_of_false ?_ (by simp [TaskStatus.toLifecycle])
            exact notIncludes_quoted "does not exist" "Failed to run task " taskId
              (" for unknown reason (Current Task Lifecycle is \"" ++
                TaskLifecycle.toStr TaskStatus.idle.toLifecycle ++ "\")") _
              (data_unknownReasonMessage taskId TaskStatus.idle.toLifecycle)
              (by decide) (by decide) (by decide) hid1 (by decide)
        | failed =>
            have hmsg : claimErrorMessage taskId (asOk (TaskLifecycle.st TaskStatus.failed)) =
                unknownReasonMessage taskId TaskStatus.failed.toLifecycle := by
              simp [claimErrorMessage, asOk, TaskStatus.toLifecycle]
            rw [hmsg]
            refine iff_of_false ?_ (by simp [TaskStatus.toLifecycle])
            exact notIncludes_quoted "does not exist" "Failed to run task " taskId
              (" for unknown reason (Current Task Lifecycle is \"" ++
                TaskLifecycle.toStr TaskStatus.failed.toLifecycle ++ "\")") _
              (data_unknownReasonMessage taskId TaskStatus.failed.toLifecycle)
              (by decide) (by decide) (by decide) hid1 (by decide)
  · cases lc with
    | notFound =>
        have hmsg : claimErrorMessage taskId (asOk TaskLifecycle.notFound) =
            notFoundMessage taskId := by
          simp [claimErrorMessage, asOk]
        rw [hmsg]
        refine iff_of_false ?_ (by simp [TaskStatus.toLifecycle])
        exact notIncludes_quoted "currently running" "Failed to run task " taskId
          " as it does not exist" _ (data_notFoundMessage taskId)
          (by decide) (by decide) (by decide) hid2 (by decide)
    | st s =>
        cases s with
        | running =>
            have hmsg : claimErrorMessage taskId (asOk (TaskLifecycle.st TaskStatus.running)) =
                currentlyRunningMessage taskId := by
              simp [claimErrorMessage, asOk, TaskStatus.toLifecycle]
            rw [hmsg]
            exact iff_of_true (includes_append_right _ _ _ (by decide)) (Or.inl rfl)
        | claiming =>
            have hmsg : claimErrorMessage taskId (asOk (TaskLifecycle.st TaskStatus.claiming)) =
                currentlyRunningMessage taskId := by
              simp [claimErrorMessage, asOk, TaskStatus.toLifecycle]
            rw [hmsg]
            exact iff_of_true (includes_append_right _ _ _ (by decide)) (Or.inr rfl)
        | idle =>
            have hmsg : claimErrorMessage taskId (asOk (TaskLifecycle.st TaskStatus.idle)) =
                unknownReasonMessage taskId TaskStatus.idle.toLifecycle := by
              simp [claimErrorMessage, asOk, TaskStatus.toLifecycle]
            rw [hmsg]
            refine iff_of_false ?_ (by simp [TaskStatus.toLifecycle])
            exact notIncludes_quoted "currently running" "Failed to run task " taskId
              (" for unknown reason (Current Task Lifecycle is \"" ++
                TaskLifecycle.toStr TaskStatus.idle.toLifecycle ++ "\")") _
              (data_unknownReasonMessage taskId TaskStatus.idle.toLifecycle)
              (by decide) (by decide) (by decide) hid2 (by decide)
        | failed =>
            have hmsg : claimErrorMessage taskId (asOk (TaskLifecycle.st TaskStatus.failed)) =
                unknownReasonMessage taskId TaskStatus.failed.toLifecycle := by
              simp [claimErrorMessage, asOk, TaskStatus.toLifecycle]
            rw [hmsg]
            refine iff_of_false ?_ (by simp [TaskStatus.toLifecycle])
            exact notIncludes_quoted "currently running" "Failed to run task " taskId
              (" for unknown reason (Current Task Lifecycle is \"" ++
                TaskLifecycle.toStr TaskStatus.failed.toLifecycle ++ "\")") _
              (data_unknownReasonMessage taskId TaskStatus.failed.toLifecycle)
              (by decide) (by decide) (by decide) hid2 (by decide)
  · intro h1 h2 h3
    cases lc with
    | notFound => exact absurd rfl h1
    | st s =>
        cases s with
        | running => exact absurd rfl h2
        | claiming => exact absurd rfl h3
        | idle => simp [claimErrorMessage, asOk, TaskStatus.toLifecycle]
        | failed => simp [claimErrorMessage, asOk, TaskStatus.toLifecycle]

/-- Witness for the amended claim C3 at task `t1` and a missing task. -/
theorem runNowClaimErrorDiagnosticsWitness :
    ∃ msg,
      settleCalls "t1" notFoundLifecycleStub [.taskClaim "t1" (asErr none)] =
        [.rejected msg] ∧
      (includes msg "does not exist" ↔ TaskLifecycle.notFound = TaskLifecycle.notFound) ∧
      (includes msg "currently running" ↔
        (TaskLifecycle.notFound = TaskStatus.running.toLifecycle ∨
          TaskLifecycle.notFound = TaskStatus.claiming.toLifecycle)) ∧
      (TaskLifecycle.notFound ≠ TaskLifecycle.notFound →
        TaskLifecycle.notFound ≠ TaskStatus.running.toLifecycle →
        TaskLifecycle.notFound ≠ TaskStatus.claiming.toLifecycle →
        msg = unknownReasonMessage "t1" TaskLifecycle.notFound) :=
  runNowClaimErrorDiagnostics "t1" notFoundLifecycleStub [] [] TaskLifecycle.notFound
    rfl rfl (by decide) (by decide)

end Kibana
